import Mathlib

/-!
Shallow embedding of `tensorflow/compiler/xla/service/gpu/autotuner_compile_util.cc`
(the autotuner compile-execute-profile cache) and proofs of the specification
claims about it.

The embedding mirrors the source functions:
  * `CompilationKey` with its `operator==` and `AbslHashValue` (lines 60-78);
  * the executable cache and `AutotunerCompileUtil::Compile` (lines 145-163),
    modelled with an explicit cache state and with the result of
    `CompileNoCache` supplied as a value (the compile function's outcome);
  * `AutotunerCompileUtil::CompileNoCache` (lines 165-176) and
    `AutotunerCompileUtil::RunBackend` (lines 205-226);
  * `ExecutionInputsFromBuffers` (lines 88-102);
  * `AutotunerCompileUtil::GenerateAndProfileExecutable` (lines 106-143),
    instrumented with an event trace recording executions, the host drain,
    timer start/stop and the copy into the caller's output buffer.

Machine-level details that do not affect the claims (actual GPU buffers,
proto wire format, stream handles) are represented by opaque data carrying
exactly the attributes the code inspects (byte sizes, serialized bytes,
status codes and payloads).
-/

namespace AutotunerVerify

/-- Modelled from the spec: `AutotuneCacheKey` is defined outside the analyzed
source (in `autotuner_util.h`); per the spec it is "a fingerprint capturing
device type and subgraph content" with structural equality and a hash
consistent with that equality. -/
structure AutotuneCacheKey where
  deviceDescription : String
  hloCanonical : String
deriving DecidableEq, Repr

/-- A candidate-result descriptor (`AutotuneResult` proto). The code only uses
its serialized form `SerializeAsString()`; `debugText` stands for the parts of
the in-memory value that equality/hash of `CompilationKey` never inspect. -/
structure AutotuneResult where
  serializedBytes : List Nat
  debugText : String
deriving DecidableEq, Repr

/-- `AutotuneResult::SerializeAsString()`: deterministic serialization. -/
def AutotuneResult.SerializeAsString (r : AutotuneResult) : List Nat :=
  r.serializedBytes

/-- `CompilationKey` (autotuner_compile_util.cc lines 60-78). -/
structure CompilationKey where
  autotune_key : AutotuneCacheKey
  res : AutotuneResult
deriving DecidableEq, Repr

/-- `CompilationKey::operator==`: serialized candidate bytes equal and
autotune keys equal (source line 66-69). -/
def CompilationKey.keyEq (a b : CompilationKey) : Bool :=
  decide (a.res.SerializeAsString = b.res.SerializeAsString) &&
    decide (a.autotune_key = b.autotune_key)

/-- A deterministic combiner for hashing a list of byte values (stands for
absl hash state updates; the exact mixing function is irrelevant, only that
it is a function of the fed bytes). -/
def natListHash (l : List Nat) : Nat :=
  l.foldl (fun h b => (h * 1000003 + b) % 18446744073709551616) 14695981039346656037

/-- Hash of the cache identity fingerprint: a function of its two components. -/
def AutotuneCacheKey.hashValue (k : AutotuneCacheKey) : Nat :=
  natListHash ((k.deviceDescription.data.map Char.toNat) ++ 0 ::
    (k.hloCanonical.data.map Char.toNat))

/-- `AbslHashValue(h, k)`: combines the hash state with `k.autotune_key` and
`k.res.SerializeAsString()` (source lines 61-64). -/
def CompilationKey.hashValue (k : CompilationKey) : Nat :=
  natListHash (AutotuneCacheKey.hashValue k.autotune_key :: k.res.SerializeAsString)

theorem keyEq_true_iff (a b : CompilationKey) :
    CompilationKey.keyEq a b = true ↔
      (a.res.SerializeAsString = b.res.SerializeAsString ∧ a.autotune_key = b.autotune_key) := by
  simp [CompilationKey.keyEq]

/-- Claim C1: for any two candidate descriptors `a`, `b` and cache
fingerprints `f1`, `f2`, the keys `Key(f1,a)` and `Key(f2,b)` are equal iff
`f1 = f2` and the serialized forms of `a` and `b` are byte-identical, and
equal keys hash equally (the hash combines the cache identity with the
serialized candidate bytes). -/
theorem key_equality_iff_fingerprint_and_serialized (f1 f2 : AutotuneCacheKey)
    (a b : AutotuneResult) :
    (CompilationKey.keyEq ⟨f1, a⟩ ⟨f2, b⟩ = true ↔
      (f1 = f2 ∧ a.SerializeAsString = b.SerializeAsString)) ∧
    (CompilationKey.keyEq ⟨f1, a⟩ ⟨f2, b⟩ = true →
      CompilationKey.hashValue ⟨f1, a⟩ = CompilationKey.hashValue ⟨f2, b⟩) := by
  constructor
  · rw [keyEq_true_iff]
    exact ⟨fun h => ⟨h.2, h.1⟩, fun h => ⟨h.2, h.1⟩⟩
  · intro h
    rw [keyEq_true_iff] at h
    obtain ⟨hs, hk⟩ := h
    dsimp only at hs hk
    simp [CompilationKey.hashValue, hs, hk]

/-- Concrete instance of C1: two descriptors that differ only in parts outside
the serialized form give equal keys with equal hashes. -/
theorem key_equality_hash_instance :
    CompilationKey.keyEq
        ⟨⟨"gpu", "hlo"⟩, ⟨[1, 2], "x"⟩⟩ ⟨⟨"gpu", "hlo"⟩, ⟨[1, 2], "y"⟩⟩ = true ∧
    CompilationKey.hashValue ⟨⟨"gpu", "hlo"⟩, ⟨[1, 2], "x"⟩⟩ =
      CompilationKey.hashValue ⟨⟨"gpu", "hlo"⟩, ⟨[1, 2], "y"⟩⟩ := by
  refine ⟨by decide, ?_⟩
  exact (key_equality_iff_fingerprint_and_serialized
    ⟨"gpu", "hlo"⟩ ⟨"gpu", "hlo"⟩ ⟨[1, 2], "x"⟩ ⟨[1, 2], "y"⟩).2 (by decide)

/-- A compiled artifact (`xla::Executable`); opaque to the claims. -/
structure Executable where
  id : Nat
deriving DecidableEq, Repr

/-- Status codes the code inspects: `kResourceExhausted` (RunBackend line 221),
the internal error produced by `TF_RET_CHECK` (line 137), and all others. -/
inductive StatusCode where
  | resourceExhausted
  | internal
  | unknown (n : Nat)
deriving DecidableEq, Repr

/-- A non-OK `absl::Status`: its code and whether it carries the
`kUncompilableFusion` payload (queried at CompileNoCache line 169).
OK statuses are the `Except.ok` side and carry no payload. -/
structure StatusErr where
  code : StatusCode
  hasUncompilableFusionPayload : Bool
deriving DecidableEq, Repr

/-- The process-wide `executable_cache` (line 85): a map from `CompilationKey`
to owned artifact, where the stored `std::unique_ptr<Executable>` may be null
(the "no artifact" marker), modelled as `Option Executable`. The association
list uses the key equality of the source hash map. -/
abbrev ExecutableCache := List (CompilationKey × Option Executable)

/-- `executable_cache.find(key)` under the mutex: returns the stored entry for
a key equal (per `CompilationKey::operator==`) to `key`, if any. -/
def cacheFind (c : ExecutableCache) (key : CompilationKey) : Option (Option Executable) :=
  match c with
  | [] => none
  | (k, v) :: rest => if CompilationKey.keyEq k key then some v else cacheFind rest key

/-- Result of one `AutotunerCompileUtil::Compile` call in the sequential
model: the cache after the call, the returned `StatusOr<Executable*>`
(null pointer = `Option.none`), and whether `CompileNoCache` was invoked. -/
structure CompileOutcome where
  cache : ExecutableCache
  result : Except StatusErr (Option Executable)
  invokedCompile : Bool
deriving Repr

/-- `AutotunerCompileUtil::Compile` (lines 145-163), with the outcome of the
`CompileNoCache` call supplied as a value. On a hit the cached entry is
returned and the compile step is skipped; on a miss the compile outcome is
consulted: an error propagates before any insertion, a success is emplaced
(the key is absent here, so emplace inserts) and the inserted entry
returned. -/
def Compile (cache : ExecutableCache) (key : CompilationKey)
    (compileNoCacheResult : Except StatusErr (Option Executable)) : CompileOutcome :=
  match cacheFind cache key with
  | some cached => ⟨cache, .ok cached, false⟩
  | none =>
    match compileNoCacheResult with
    | .error st => ⟨cache, .error st, true⟩
    | .ok exe => ⟨(key, exe) :: cache, .ok exe, true⟩

theorem keyEq_congr_right (k k1 k2 : CompilationKey)
    (h : CompilationKey.keyEq k1 k2 = true) :
    CompilationKey.keyEq k k1 = CompilationKey.keyEq k k2 := by
  rw [keyEq_true_iff] at h
  simp only [CompilationKey.keyEq, h.1, h.2]

theorem cacheFind_congr (c : ExecutableCache) (k1 k2 : CompilationKey)
    (h : CompilationKey.keyEq k1 k2 = true) :
    cacheFind c k1 = cacheFind c k2 := by
  induction c with
  | nil => rfl
  | cons kv rest ih => simp only [cacheFind, keyEq_congr_right kv.1 k1 k2 h, ih]

/-- Claim C2: on a cache miss, a successful compile is invoked (exactly the
one invocation of this call) and its result published under the key; every
subsequent call with an equal key returns the cached entry — artifact or
"no artifact" marker alike — never re-invokes compilation, and leaves the
cache unchanged. -/
theorem compile_idempotent_per_key (cache : ExecutableCache) (key key2 : CompilationKey)
    (exe : Option Executable) (r2 : Except StatusErr (Option Executable))
    (hmiss : cacheFind cache key = none)
    (heq : CompilationKey.keyEq key key2 = true) :
    (Compile cache key (.ok exe)).invokedCompile = true ∧
    (Compile cache key (.ok exe)).result = .ok exe ∧
    cacheFind (Compile cache key (.ok exe)).cache key2 = some exe ∧
    (Compile (Compile cache key (.ok exe)).cache key2 r2).invokedCompile = false ∧
    (Compile (Compile cache key (.ok exe)).cache key2 r2).result = .ok exe ∧
    (Compile (Compile cache key (.ok exe)).cache key2 r2).cache =
      (Compile cache key (.ok exe)).cache := by
  have hc : Compile cache key (.ok exe) = ⟨(key, exe) :: cache, .ok exe, true⟩ := by
    simp [Compile, hmiss]
  have hfind : cacheFind ((key, exe) :: cache) key2 = some exe := by
    simp [cacheFind, heq]
  refine ⟨by rw [hc], by rw [hc], by rw [hc]; exact hfind, ?_, ?_, ?_⟩ <;>
    rw [hc] <;> simp [Compile, hfind]

/-- Concrete instance of C2: miss, compile to the "no artifact" marker,
then a hit that does not re-invoke compilation. -/
theorem compile_idempotent_instance :
    cacheFind [] ⟨⟨"gpu", "hlo"⟩, ⟨[1], "a"⟩⟩ = none ∧
    (Compile (Compile [] ⟨⟨"gpu", "hlo"⟩, ⟨[1], "a"⟩⟩ (.ok none)).cache
        ⟨⟨"gpu", "hlo"⟩, ⟨[1], "b"⟩⟩ (.ok (some ⟨7⟩))).invokedCompile = false := by
  refine ⟨rfl, ?_⟩
  exact (compile_idempotent_per_key [] ⟨⟨"gpu", "hlo"⟩, ⟨[1], "a"⟩⟩
    ⟨⟨"gpu", "hlo"⟩, ⟨[1], "b"⟩⟩ none (.ok (some ⟨7⟩)) rfl (by decide)).2.2.2.1

/-- Claim C7: when the compile function fails with a fatal error, the cache is
unchanged — the key is not inserted, the error propagates, and a later call
with an equal key is still a miss that invokes compilation again. -/
theorem compile_error_leaves_cache_unchanged (cache : ExecutableCache)
    (key key2 : CompilationKey) (st : StatusErr)
    (r2 : Except StatusErr (Option Executable))
    (hmiss : cacheFind cache key = none)
    (heq : CompilationKey.keyEq key key2 = true) :
    (Compile cache key (.error st)).cache = cache ∧
    (Compile cache key (.error st)).result = .error st ∧
    cacheFind (Compile cache key (.error st)).cache key2 = none ∧
    (Compile (Compile cache key (.error st)).cache key2 r2).invokedCompile = true := by
  have hc : Compile cache key (.error st) = ⟨cache, .error st, true⟩ := by
    simp [Compile, hmiss]
  have hmiss2 : cacheFind cache key2 = none := by
    rw [← cacheFind_congr cache key key2 heq]; exact hmiss
  refine ⟨by rw [hc], by rw [hc], by rw [hc]; exact hmiss2, ?_⟩
  rw [hc]
  cases r2 <;> simp [Compile, hmiss2]

/-- Concrete instance of C7: a failed compile leaves the empty cache empty. -/
theorem compile_error_instance :
    cacheFind [] ⟨⟨"gpu", "hlo"⟩, ⟨[1], "a"⟩⟩ = none ∧
    (Compile [] ⟨⟨"gpu", "hlo"⟩, ⟨[1], "a"⟩⟩
      (.error ⟨.unknown 3, false⟩)).cache = [] := by
  refine ⟨rfl, ?_⟩
  exact (compile_error_leaves_cache_unchanged [] ⟨⟨"gpu", "hlo"⟩, ⟨[1], "a"⟩⟩
    ⟨⟨"gpu", "hlo"⟩, ⟨[1], "a"⟩⟩ ⟨.unknown 3, false⟩ (.ok none) rfl (by decide)).1

/-- The `DebugOptions` fields the code overrides (RunBackend lines 210-217),
plus `otherOptions`, standing for every field the code leaves inherited. -/
structure DebugOptions where
  xla_dump_to : String
  xla_gpu_dump_autotune_results_to : String
  xla_gpu_load_autotune_results_from : String
  xla_gpu_dump_llvmir : Bool
  xla_gpu_force_compilation_parallelism : Nat
  xla_gpu_enable_xla_runtime_executable : Bool
  otherOptions : Nat
deriving DecidableEq, Repr

/-- `HloModuleConfig`: its debug options, plus `otherConfig` standing for the
configuration the code does not touch. -/
structure HloModuleConfig where
  debug_options : DebugOptions
  otherConfig : Nat
deriving DecidableEq, Repr

/-- An HLO module: its config and opaque content. -/
structure HloModule where
  config : HloModuleConfig
  content : Nat
deriving DecidableEq, Repr

/-- The option overrides applied by `RunBackend` (lines 210-217) to the debug
options taken from the original computation's module config. -/
def autotuneDebugOptions (original : DebugOptions) : DebugOptions :=
  { original with
    xla_dump_to := "",
    xla_gpu_dump_autotune_results_to := "",
    xla_gpu_load_autotune_results_from := "",
    xla_gpu_dump_llvmir := false,
    xla_gpu_force_compilation_parallelism := 1,
    xla_gpu_enable_xla_runtime_executable := false }

/-- `AutotunerCompileUtil::RunBackend` (lines 205-226), with the backend
compiler supplied as a function. It returns both the module actually handed
to the backend (after the debug-option overrides) and the
`StatusOr<unique_ptr<Executable>>` outcome: a `kResourceExhausted` backend
failure becomes a null executable (`Option.none`), any other failure
propagates, success yields the artifact. -/
def RunBackend (originalConfig : HloModuleConfig) (m : HloModule)
    (backend : HloModule → Except StatusErr Executable) :
    HloModule × Except StatusErr (Option Executable) :=
  let options := autotuneDebugOptions originalConfig.debug_options
  let m2 : HloModule := { m with config := { m.config with debug_options := options } }
  (m2,
    match backend m2 with
    | .error st =>
        if st.code = StatusCode.resourceExhausted then .ok none else .error st
    | .ok exe => .ok (some exe))

/-- `AutotunerCompileUtil::CompileNoCache` (lines 165-176), with the module
extractor's outcome supplied as a value. If the extractor's status carries the
`kUncompilableFusion` payload the result is a null executable (no artifact);
any other extractor failure propagates; otherwise the backend runs. An OK
status never carries a payload, matching `absl::Status`. -/
def CompileNoCache (originalConfig : HloModuleConfig)
    (extractorResult : Except StatusErr HloModule)
    (backend : HloModule → Except StatusErr Executable) :
    Except StatusErr (Option Executable) :=
  match extractorResult with
  | .error st =>
      if st.hasUncompilableFusionPayload then .ok none else .error st
  | .ok m => (RunBackend originalConfig m backend).2

/-- Claim C8: the module handed to the backend compiler carries debug options
derived from the original computation's config with exactly the fixed
overrides — dumping and LLVM-IR dumping disabled, autotune-result dump/load
disabled, compilation parallelism forced to 1, XLA-runtime executable
disabled — every other option inherited, and the rest of the module
untouched. -/
theorem runbackend_debug_option_overrides (originalConfig : HloModuleConfig)
    (m : HloModule) (backend : HloModule → Except StatusErr Executable) :
    (RunBackend originalConfig m backend).1.config.debug_options =
      autotuneDebugOptions originalConfig.debug_options ∧
    (RunBackend originalConfig m backend).1.config.debug_options.xla_dump_to = "" ∧
    (RunBackend originalConfig m backend).1.config.debug_options.xla_gpu_dump_autotune_results_to = "" ∧
    (RunBackend originalConfig m backend).1.config.debug_options.xla_gpu_load_autotune_results_from = "" ∧
    (RunBackend originalConfig m backend).1.config.debug_options.xla_gpu_dump_llvmir = false ∧
    (RunBackend originalConfig m backend).1.config.debug_options.xla_gpu_force_compilation_parallelism = 1 ∧
    (RunBackend originalConfig m backend).1.config.debug_options.xla_gpu_enable_xla_runtime_executable = false ∧
    (RunBackend originalConfig m backend).1.config.debug_options.otherOptions =
      originalConfig.debug_options.otherOptions ∧
    (RunBackend originalConfig m backend).1.config.otherConfig = m.config.otherConfig ∧
    (RunBackend originalConfig m backend).1.content = m.content :=
  ⟨rfl, rfl, rfl, rfl, rfl, rfl, rfl, rfl, rfl, rfl⟩

theorem runBackend_snd (cfg : HloModuleConfig) (m : HloModule)
    (backend : HloModule → Except StatusErr Executable) :
    (RunBackend cfg m backend).2 =
      match backend (RunBackend cfg m backend).1 with
      | .error st =>
          if st.code = StatusCode.resourceExhausted then .ok none else .error st
      | .ok exe => .ok (some exe) := rfl

theorem runBackend_snd_error {cfg : HloModuleConfig} {m : HloModule}
    {backend : HloModule → Except StatusErr Executable} {st1 : StatusErr}
    (hb : backend (RunBackend cfg m backend).1 = .error st1) :
    (RunBackend cfg m backend).2 =
      if st1.code = StatusCode.resourceExhausted then .ok none else .error st1 := by
  rw [runBackend_snd, hb]

theorem runBackend_snd_ok {cfg : HloModuleConfig} {m : HloModule}
    {backend : HloModule → Except StatusErr Executable} {exe : Executable}
    (hb : backend (RunBackend cfg m backend).1 = .ok exe) :
    (RunBackend cfg m backend).2 = .ok (some exe) := by
  rw [runBackend_snd, hb]

theorem compileNoCache_ok_none_iff (cfg : HloModuleConfig)
    (ext : Except StatusErr HloModule)
    (backend : HloModule → Except StatusErr Executable) :
    CompileNoCache cfg ext backend = .ok none ↔
      ((∃ st, ext = .error st ∧ st.hasUncompilableFusionPayload = true) ∨
       (∃ m st, ext = .ok m ∧
         backend (RunBackend cfg m backend).1 = .error st ∧
         st.code = StatusCode.resourceExhausted)) := by
  cases ext with
  | error st0 =>
    rw [show CompileNoCache cfg (.error st0) backend =
      (if st0.hasUncompilableFusionPayload then .ok none else .error st0) from rfl]
    cases hpay : st0.hasUncompilableFusionPayload with
    | true =>
      rw [if_pos rfl]
      constructor
      · intro _
        exact Or.inl ⟨st0, rfl, hpay⟩
      · intro _
        rfl
    | false =>
      rw [if_neg Bool.false_ne_true]
      constructor
      · intro h
        exact Except.noConfusion h
      · rintro (⟨st, h1, hp⟩ | ⟨m, st, hm, _⟩)
        · injection h1 with h1
          subst h1
          rw [hpay] at hp
          exact Bool.noConfusion hp
        · exact Except.noConfusion hm
  | ok m0 =>
    rw [show CompileNoCache cfg (.ok m0) backend = (RunBackend cfg m0 backend).2 from rfl]
    cases hb : backend (RunBackend cfg m0 backend).1 with
    | error st1 =>
      rw [runBackend_snd_error hb]
      by_cases hcode : st1.code = StatusCode.resourceExhausted
      · rw [if_pos hcode]
        constructor
        · intro _
          exact Or.inr ⟨m0, st1, rfl, hb, hcode⟩
        · intro _
          rfl
      · rw [if_neg hcode]
        constructor
        · intro h
          exact Except.noConfusion h
        · rintro (⟨st, h1, _⟩ | ⟨m, st, hm, hbe, hc⟩)
          · exact Except.noConfusion h1
          · injection hm with hm
            subst hm
            rw [hb] at hbe
            injection hbe with hbe
            subst hbe
            exact absurd hc hcode
    | ok exe =>
      rw [runBackend_snd_ok hb]
      constructor
      · intro h
        injection h with h
        exact Option.noConfusion h
      · rintro (⟨st, h1, _⟩ | ⟨m, st, hm, hbe, _⟩)
        · exact Except.noConfusion h1
        · injection hm with hm
          subst hm
          rw [hb] at hbe
          exact Except.noConfusion hbe

theorem compileNoCache_error_iff (cfg : HloModuleConfig)
    (ext : Except StatusErr HloModule)
    (backend : HloModule → Except StatusErr Executable) (st : StatusErr) :
    CompileNoCache cfg ext backend = .error st ↔
      ((ext = .error st ∧ st.hasUncompilableFusionPayload = false) ∨
       (∃ m, ext = .ok m ∧
         backend (RunBackend cfg m backend).1 = .error st ∧
         st.code ≠ StatusCode.resourceExhausted)) := by
  cases ext with
  | error st0 =>
    rw [show CompileNoCache cfg (.error st0) backend =
      (if st0.hasUncompilableFusionPayload then .ok none else .error st0) from rfl]
    cases hpay : st0.hasUncompilableFusionPayload with
    | true =>
      rw [if_pos rfl]
      constructor
      · intro h
        exact Except.noConfusion h
      · rintro (⟨h1, hp⟩ | ⟨m, hm, _⟩)
        · injection h1 with h1
          subst h1
          rw [hpay] at hp
          exact Bool.noConfusion hp
        · exact Except.noConfusion hm
    | false =>
      rw [if_neg Bool.false_ne_true]
      constructor
      · intro h
        injection h with h
        subst h
        exact Or.inl ⟨rfl, hpay⟩
      · rintro (⟨h1, _⟩ | ⟨m, hm, _⟩)
        · injection h1 with h1
          subst h1
          rfl
        · exact Except.noConfusion hm
  | ok m0 =>
    rw [show CompileNoCache cfg (.ok m0) backend = (RunBackend cfg m0 backend).2 from rfl]
    cases hb : backend (RunBackend cfg m0 backend).1 with
    | error st1 =>
      rw [runBackend_snd_error hb]
      by_cases hcode : st1.code = StatusCode.resourceExhausted
      · rw [if_pos hcode]
        constructor
        · intro h
          exact Except.noConfusion h
        · rintro (⟨h1, _⟩ | ⟨m, hm, hbe, hne⟩)
          · exact Except.noConfusion h1
          · injection hm with hm
            subst hm
            rw [hb] at hbe
            injection hbe with hbe
            subst hbe
            exact absurd hcode hne
      · rw [if_neg hcode]
        constructor
        · intro h
          injection h with h
          subst h
          exact Or.inr ⟨m0, rfl, hb, hcode⟩
        · rintro (⟨h1, _⟩ | ⟨m, hm, hbe, _⟩)
          · exact Except.noConfusion h1
          · injection hm with hm
            subst hm
            rw [hb] at hbe
            injection hbe with hbe
            subst hbe
            rfl
    | ok exe =>
      rw [runBackend_snd_ok hb]
      constructor
      · intro h
        exact Except.noConfusion h
      · rintro (⟨h1, _⟩ | ⟨m, hm, hbe, _⟩)
        · exact Except.noConfusion h1
        · injection hm with hm
          subst hm
          rw [hb] at hbe
          exact Except.noConfusion hbe

/-- Claim C3: compiling one candidate without the cache yields "no artifact"
(a null executable, not an error) in exactly two cases — the extractor fails
with the `kUncompilableFusion` payload, or the backend fails with
`kResourceExhausted` — and every other failure of either propagates as the
error it is. -/
theorem compile_no_cache_no_artifact_iff (originalConfig : HloModuleConfig)
    (extractorResult : Except StatusErr HloModule)
    (backend : HloModule → Except StatusErr Executable) :
    (CompileNoCache originalConfig extractorResult backend = .ok none ↔
      ((∃ st, extractorResult = .error st ∧ st.hasUncompilableFusionPayload = true) ∨
       (∃ m st, extractorResult = .ok m ∧
         backend (RunBackend originalConfig m backend).1 = .error st ∧
         st.code = StatusCode.resourceExhausted))) ∧
    (∀ st, CompileNoCache originalConfig extractorResult backend = .error st ↔
      ((extractorResult = .error st ∧ st.hasUncompilableFusionPayload = false) ∨
       (∃ m, extractorResult = .ok m ∧
         backend (RunBackend originalConfig m backend).1 = .error st ∧
         st.code ≠ StatusCode.resourceExhausted))) :=
  ⟨compileNoCache_ok_none_iff originalConfig extractorResult backend,
   fun st => compileNoCache_error_iff originalConfig extractorResult backend st⟩

/-- Concrete instance of C3: an extractor failure tagged with the
`kUncompilableFusion` payload yields "no artifact", not an error. -/
theorem compile_no_cache_instance :
    CompileNoCache ⟨⟨"d", "a", "l", true, 4, true, 9⟩, 3⟩
      (.error ⟨.unknown 0, true⟩) (fun _ => .error ⟨.unknown 1, false⟩) = .ok none :=
  (compile_no_cache_no_artifact_iff ⟨⟨"d", "a", "l", true, 4, true, 9⟩, 3⟩
    (.error ⟨.unknown 0, true⟩) (fun _ => .error ⟨.unknown 1, false⟩)).1.mpr
    (Or.inl ⟨⟨.unknown 0, true⟩, rfl, rfl⟩)


/-- The shape of a parameter instruction of the entry computation; opaque. -/
structure Shape where
  dims : List Nat
deriving DecidableEq, Repr

/-- A device memory region; the code inspects only its byte size. -/
structure DeviceMemoryBase where
  size : Nat
deriving DecidableEq, Repr

/-- An `ExecutionInput`: a parameter shape bound to an unowned caller buffer
(`SetUnownedBuffer` at root index). -/
structure ExecutionInput where
  shape : Shape
  buffer : DeviceMemoryBase
deriving DecidableEq, Repr

/-- `ExecutionInputsFromBuffers` (lines 88-102): pairs the executable's
parameter shapes, in declaration order, with the same-index caller buffer.
The `CHECK_EQ(params.size(), buffers.size())` process abort on arity mismatch
is modelled as `none`. -/
def ExecutionInputsFromBuffers (params : List Shape)
    (buffers : List DeviceMemoryBase) : Option (List ExecutionInput) :=
  if params.length = buffers.length then
    some ((params.zip buffers).map fun pb => ⟨pb.1, pb.2⟩)
  else none

theorem zip_map_get (params : List Shape) (buffers : List DeviceMemoryBase) (i : Nat) :
    ((params.zip buffers).map fun pb => (⟨pb.1, pb.2⟩ : ExecutionInput)).get? i =
      (params.get? i).bind fun p => (buffers.get? i).map fun b => ⟨p, b⟩ := by
  induction params generalizing buffers i with
  | nil => cases buffers <;> cases i <;> simp
  | cons p ps ih =>
    cases buffers with
    | nil => cases i <;> simp
    | cons b bs =>
      cases i with
      | zero => simp
      | succ n => simpa using ih bs n

/-- Claim C9: binding inputs pairs each declared parameter, in order, with the
caller buffer at the same index; under equal arity binding always succeeds
(the mismatch branch is unreachable), and an arity mismatch is the fatal
`CHECK` abort. -/
theorem execution_inputs_pair_in_order (params : List Shape)
    (buffers : List DeviceMemoryBase)
    (params2 : List Shape) (buffers2 : List DeviceMemoryBase)
    (h : params.length = buffers.length)
    (h2 : params2.length ≠ buffers2.length) :
    (∃ inputs, ExecutionInputsFromBuffers params buffers = some inputs ∧
      inputs.length = params.length ∧
      ∀ i, inputs.get? i =
        (params.get? i).bind fun p => (buffers.get? i).map fun b => ⟨p, b⟩) ∧
    ExecutionInputsFromBuffers params2 buffers2 = none := by
  refine ⟨⟨(params.zip buffers).map fun pb => ⟨pb.1, pb.2⟩, ?_, ?_, ?_⟩, ?_⟩
  · rw [ExecutionInputsFromBuffers, if_pos h]
  · rw [List.length_map, List.length_zip, h, Nat.min_self]
  · exact fun i => zip_map_get params buffers i
  · rw [ExecutionInputsFromBuffers, if_neg h2]

/-- Concrete instance of C9: two parameters bound to two buffers in order;
one parameter with zero buffers aborts. -/
theorem execution_inputs_instance :
    [(⟨[2]⟩ : Shape), ⟨[3]⟩].length = [(⟨16⟩ : DeviceMemoryBase), ⟨32⟩].length ∧
    (∃ inputs,
      ExecutionInputsFromBuffers [⟨[2]⟩, ⟨[3]⟩] [⟨16⟩, ⟨32⟩] = some inputs ∧
      inputs.length = 2 ∧
      ∀ i, inputs.get? i =
        ([(⟨[2]⟩ : Shape), ⟨[3]⟩].get? i).bind fun p =>
          ([(⟨16⟩ : DeviceMemoryBase), ⟨32⟩].get? i).map fun b => ⟨p, b⟩) ∧
    ExecutionInputsFromBuffers [⟨[2]⟩] [] = none := by
  refine ⟨rfl, ?_⟩
  exact execution_inputs_pair_in_order [⟨[2]⟩, ⟨[3]⟩] [⟨16⟩, ⟨32⟩] [⟨[2]⟩] []
    rfl (by decide)

/-- Device-side elapsed time (`absl::Duration`). -/
abbrev Duration := Int

/-- An `ExecutionOutput`; the code inspects the byte size of its root result
buffer (`result.root_buffer().size()`). -/
structure ExecutionOutput where
  rootBufferSize : Nat
deriving DecidableEq, Repr

/-- Observable device/host actions of one `GenerateAndProfileExecutable`
call, in program order: the warmup `Execute`, the `BlockHostUntilDone`
drain, the device timer start (`GpuTimer::Create`), the timed `Execute`,
the timer stop/read (`GetElapsedDuration`), and the `ThenMemcpy` into the
caller's output buffer. -/
inductive Event where
  | executeWarmup
  | blockHostUntilDone
  | timerStart
  | executeTimed
  | timerStop
  | memcpyToOutput
deriving DecidableEq, Repr

/-- How many `Execute` calls a trace contains (warmup or timed). -/
def countExecutions (tr : List Event) : Nat :=
  tr.countP fun ev => decide (ev = Event.executeWarmup ∨ ev = Event.executeTimed)

/-- `AutotunerCompileUtil::GenerateAndProfileExecutable` (lines 106-143),
with the outcomes of the collaborator calls supplied as values and the calls
it performs recorded as an event trace. Mirrors the source line by line:
compile (through the cache); a null executable means "no measurement"; warmup
execute; host drain; timer creation; timed execute; timer read; the
`TF_RET_CHECK` size comparison; the memcpy into the caller's buffer. -/
def GenerateAndProfileExecutable
    (compileResult : Except StatusErr (Option Executable))
    (warmupRun : Except StatusErr ExecutionOutput)
    (drainResult : Except StatusErr Unit)
    (timerCreate : Except StatusErr Unit)
    (timedRun : Except StatusErr ExecutionOutput)
    (timerElapsed : Except StatusErr Duration)
    (output_buffer : DeviceMemoryBase) :
    List Event × Except StatusErr (Option Duration) :=
  match compileResult with
  | .error st => ([], .error st)
  | .ok none => ([], .ok none)
  | .ok (some _) =>
    match warmupRun with
    | .error st => ([.executeWarmup], .error st)
    | .ok _ =>
      match drainResult with
      | .error st => ([.executeWarmup, .blockHostUntilDone], .error st)
      | .ok _ =>
        match timerCreate with
        | .error st => ([.executeWarmup, .blockHostUntilDone], .error st)
        | .ok _ =>
          match timedRun with
          | .error st =>
              ([.executeWarmup, .blockHostUntilDone, .timerStart, .executeTimed],
               .error st)
          | .ok execution_output =>
            match timerElapsed with
            | .error st =>
                ([.executeWarmup, .blockHostUntilDone, .timerStart, .executeTimed],
                 .error st)
            | .ok timer_duration =>
              if output_buffer.size = execution_output.rootBufferSize then
                ([.executeWarmup, .blockHostUntilDone, .timerStart, .executeTimed,
                  .timerStop, .memcpyToOutput],
                 .ok (some timer_duration))
              else
                ([.executeWarmup, .blockHostUntilDone, .timerStart, .executeTimed,
                  .timerStop],
                 .error ⟨.internal, false⟩)

theorem gape_success_trace (cr : Except StatusErr (Option Executable))
    (wr : Except StatusErr ExecutionOutput) (dr : Except StatusErr Unit)
    (tc : Except StatusErr Unit) (tr : Except StatusErr ExecutionOutput)
    (te : Except StatusErr Duration) (ob : DeviceMemoryBase) (d : Duration)
    (h : (GenerateAndProfileExecutable cr wr dr tc tr te ob).2 = .ok (some d)) :
    (GenerateAndProfileExecutable cr wr dr tc tr te ob).1 =
      [.executeWarmup, .blockHostUntilDone, .timerStart, .executeTimed,
       .timerStop, .memcpyToOutput] := by
  rcases cr with st0 | (_ | exe) <;>
  rcases wr with st1 | out1 <;>
  rcases dr with st2 | u2 <;>
  rcases tc with st3 | u3 <;>
  rcases tr with st4 | out4 <;>
  rcases te with st5 | dur <;>
  first
  | (simp [GenerateAndProfileExecutable] at h; done)
  | (by_cases hsz : ob.size = out4.rootBufferSize <;>
      simp [GenerateAndProfileExecutable, hsz] at h ⊢)

/-- Claim C4: whenever `GenerateAndProfileExecutable` returns a duration, the
artifact is executed at least twice; the warmup execution strictly precedes
the timed one, the host-blocking device drain sits strictly between them,
and the device timer is started after the drain and stopped after the timed
execution completes. -/
theorem measure_warmup_drain_timer_order (cr : Except StatusErr (Option Executable))
    (wr : Except StatusErr ExecutionOutput) (dr : Except StatusErr Unit)
    (tc : Except StatusErr Unit) (tr : Except StatusErr ExecutionOutput)
    (te : Except StatusErr Duration) (ob : DeviceMemoryBase) (d : Duration)
    (h : (GenerateAndProfileExecutable cr wr dr tc tr te ob).2 = .ok (some d)) :
    2 ≤ countExecutions (GenerateAndProfileExecutable cr wr dr tc tr te ob).1 ∧
    ∃ iw idr its ite istop : Nat,
      iw < idr ∧ idr < its ∧ its < ite ∧ ite < istop ∧
      (GenerateAndProfileExecutable cr wr dr tc tr te ob).1.get? iw =
        some .executeWarmup ∧
      (GenerateAndProfileExecutable cr wr dr tc tr te ob).1.get? idr =
        some .blockHostUntilDone ∧
      (GenerateAndProfileExecutable cr wr dr tc tr te ob).1.get? its =
        some .timerStart ∧
      (GenerateAndProfileExecutable cr wr dr tc tr te ob).1.get? ite =
        some .executeTimed ∧
      (GenerateAndProfileExecutable cr wr dr tc tr te ob).1.get? istop =
        some .timerStop := by
  rw [gape_success_trace cr wr dr tc tr te ob d h]
  exact ⟨by decide, 0, 1, 2, 3, 4, by decide, by decide, by decide, by decide,
    rfl, rfl, rfl, rfl, rfl⟩

/-- Concrete instance of C4: an all-successful measurement returns the timed
duration and executes the artifact twice. -/
theorem measure_warmup_instance :
    (GenerateAndProfileExecutable (.ok (some ⟨0⟩)) (.ok ⟨4⟩) (.ok ()) (.ok ())
        (.ok ⟨4⟩) (.ok 5) ⟨4⟩).2 = .ok (some 5) ∧
    2 ≤ countExecutions (GenerateAndProfileExecutable (.ok (some ⟨0⟩)) (.ok ⟨4⟩)
        (.ok ()) (.ok ()) (.ok ⟨4⟩) (.ok 5) ⟨4⟩).1 :=
  ⟨rfl, (measure_warmup_drain_timer_order (.ok (some ⟨0⟩)) (.ok ⟨4⟩) (.ok ())
    (.ok ()) (.ok ⟨4⟩) (.ok 5) ⟨4⟩ 5 rfl).1⟩

/-- Claim C5: if compilation yields no artifact, the measurement returns the
"no measurement" outcome (an empty optional, not an error) and performs no
execution, no drain, no timing and no output copy: the event trace is empty. -/
theorem measure_no_artifact_no_measurement (wr : Except StatusErr ExecutionOutput)
    (dr : Except StatusErr Unit) (tc : Except StatusErr Unit)
    (tr : Except StatusErr ExecutionOutput) (te : Except StatusErr Duration)
    (ob : DeviceMemoryBase) :
    GenerateAndProfileExecutable (.ok none) wr dr tc tr te ob = ([], .ok none) :=
  rfl

/-- Claim C6: after an otherwise-successful run, a byte-size mismatch between
the produced root output buffer and the caller-supplied output buffer is a
fatal error with no copy performed, while equal sizes yield the copy into the
caller's buffer and the measured duration. -/
theorem measure_size_check (exe : Executable) (wout tout : ExecutionOutput)
    (dur : Duration) (ob : DeviceMemoryBase) :
    (GenerateAndProfileExecutable (.ok (some exe)) (.ok wout) (.ok ()) (.ok ())
        (.ok tout) (.ok dur) ob).2 =
      (if ob.size = tout.rootBufferSize then .ok (some dur)
       else .error ⟨.internal, false⟩) ∧
    (Event.memcpyToOutput ∈ (GenerateAndProfileExecutable (.ok (some exe))
        (.ok wout) (.ok ()) (.ok ()) (.ok tout) (.ok dur) ob).1 ↔
      ob.size = tout.rootBufferSize) := by
  by_cases hsz : ob.size = tout.rootBufferSize <;>
    simp [GenerateAndProfileExecutable, hsz]

/-- Concrete instance of C6: equal byte sizes (8 = 8) yield the duration and
the copy into the caller's buffer. -/
theorem measure_size_check_instance :
    (GenerateAndProfileExecutable (.ok (some ⟨1⟩)) (.ok ⟨8⟩) (.ok ()) (.ok ())
        (.ok ⟨8⟩) (.ok 2) ⟨8⟩).2 = .ok (some 2) := by
  have h := (measure_size_check ⟨1⟩ ⟨8⟩ ⟨8⟩ 2 ⟨8⟩).1
  rw [if_pos rfl] at h
  exact h

/-- Claim C10: on every error outcome of the measurement — compilation
failure, warmup or drain failure, timer creation failure, timed execution
failure, timer read failure, or output size mismatch — the copy into the
caller-supplied output buffer never happens. -/
theorem measure_error_no_output_write (cr : Except StatusErr (Option Executable))
    (wr : Except StatusErr ExecutionOutput) (dr : Except StatusErr Unit)
    (tc : Except StatusErr Unit) (tr : Except StatusErr ExecutionOutput)
    (te : Except StatusErr Duration) (ob : DeviceMemoryBase) (st : StatusErr)
    (h : (GenerateAndProfileExecutable cr wr dr tc tr te ob).2 = .error st) :
    Event.memcpyToOutput ∉ (GenerateAndProfileExecutable cr wr dr tc tr te ob).1 := by
  rcases cr with st0 | (_ | exe) <;>
  rcases wr with st1 | out1 <;>
  rcases dr with st2 | u2 <;>
  rcases tc with st3 | u3 <;>
  rcases tr with st4 | out4 <;>
  rcases te with st5 | dur <;>
  first
  | (simp [GenerateAndProfileExecutable]; done)
  | (simp [GenerateAndProfileExecutable] at h; done)
  | (by_cases hsz : ob.size = out4.rootBufferSize <;>
      first
      | (simp [GenerateAndProfileExecutable, hsz] at h; done)
      | (simp [GenerateAndProfileExecutable, hsz]; done))

/-- Concrete instance of C10: a size mismatch (3-byte caller buffer, 4-byte
produced output) errors out with no copy event in the trace. -/
theorem measure_error_instance :
    (GenerateAndProfileExecutable (.ok (some ⟨0⟩)) (.ok ⟨4⟩) (.ok ()) (.ok ())
        (.ok ⟨4⟩) (.ok 5) ⟨3⟩).2 = .error ⟨.internal, false⟩ ∧
    Event.memcpyToOutput ∉ (GenerateAndProfileExecutable (.ok (some ⟨0⟩))
        (.ok ⟨4⟩) (.ok ()) (.ok ()) (.ok ⟨4⟩) (.ok 5) ⟨3⟩).1 :=
  ⟨rfl, measure_error_no_output_write (.ok (some ⟨0⟩)) (.ok ⟨4⟩) (.ok ()) (.ok ())
    (.ok ⟨4⟩) (.ok 5) ⟨3⟩ ⟨.internal, false⟩ rfl⟩

end AutotunerVerify
